import Mathlib

/-!
Shallow embedding of the AppImage packaging pipeline of this repository:
the `add_appimage_from_component` function of `cmake/AppImage.cmake` and
the CPack-time assembly script `cmake/LinuxDeployAppImage.cmake`.

CMake strings are modelled as Lean `String`s.  CMake lists are modelled by
their underlying string together with the splitting convention used by
`foreach(... IN LISTS ...)` and by unquoted `${...}` expansion: elements are
separated by `;`, and a backslash-escaped `\;` stays inside an element as a
literal `;` (the backslash is consumed).  `CACHE`/`-D` transport of the
flattened `EXTRA_ENV_VARS` string is modelled as handing the flattened
string over verbatim (the literal quote characters added around it at
`AppImage.cmake:67` are assumed to be stripped by the shell layer of the
generated build command).
-/

namespace Chat

/-- CMake `string(REPLACE <pat> <repl> <out> <input>)`: replace every
occurrence of `pat`, scanning left to right, non-overlapping.  The recursion
is fuel-based (structural in the fuel) so that the kernel can evaluate it;
`crep` supplies fuel `s.length`, which suffices because each step consumes
at least one character and one unit of fuel. -/
def replaceAllFuel (pat repl : List Char) : Nat → List Char → List Char
  | 0, s => s
  | fuel + 1, s =>
    match s with
    | [] => []
    | c :: rest =>
      if pat.isPrefixOf (c :: rest) && !pat.isEmpty then
        repl ++ replaceAllFuel pat repl fuel (rest.drop (pat.length - 1))
      else
        c :: replaceAllFuel pat repl fuel rest

/-- CMake `string(REPLACE ...)` on Lean strings. -/
def crep (pat repl s : String) : String :=
  ⟨replaceAllFuel pat.data repl.data s.data.length s.data⟩

/-- CMake list splitting on the character level: split on `;`, except that a
backslash-escaped `\;` stays inside the current element as a literal `;`. -/
def cmakeSplitChars : List Char → List (List Char)
  | [] => [[]]
  | '\\' :: ';' :: rest =>
    match cmakeSplitChars rest with
    | [] => [[';']]
    | t :: ts => (';' :: t) :: ts
  | ';' :: rest => [] :: cmakeSplitChars rest
  | c :: rest =>
    match cmakeSplitChars rest with
    | [] => [[c]]
    | t :: ts => (c :: t) :: ts

/-- Elements of a CMake list given by its underlying string, as enumerated by
`foreach(... IN LISTS ...)` or by unquoted `${...}` expansion.  The empty
string is the empty list. -/
def cmakeSplitList (s : String) : List String :=
  if s.data = [] then [] else (cmakeSplitChars s.data).map (fun l => ⟨l⟩)

/-- Flattening of the extra environment variables on the
`add_appimage_from_component` side (`AppImage.cmake:64-66`):
`string(JOIN ";" ...)` over the argument list followed by
`string(REPLACE ";" "\;" ...)`. -/
def flattenEnvVars (vars : List String) : String :=
  crep ";" "\\;" (String.intercalate ";" vars)

/-- Per-element unflattening on the assembly-script side
(`LinuxDeployAppImage.cmake:156`):
`string(REPLACE "<SEMICOLON>" "\;" ENV_VAR "${ENV_VAR}")`. -/
def unflattenEnvVar (s : String) : String :=
  crep "<SEMICOLON>" "\\;" s

/-- The first entry of `LINUXDEPLOY_ENV` (`LinuxDeployAppImage.cmake:151`). -/
def pathEntry (baseDir inheritedPath : String) : String :=
  "PATH=" ++ baseDir ++ ":" ++ inheritedPath

/-- The `LINUXDEPLOY_ENV` list as built by `LinuxDeployAppImage.cmake:150-160`
from the already-split elements of `EXTRA_ENV_VARS`: start from the PATH
entry, then `list(APPEND ...)` each unflattened element in loop order. -/
def compose (baseDir inheritedPath : String) (extraVars : List String) : List String :=
  extraVars.foldl (fun acc v => acc ++ [unflattenEnvVar v]) [pathEntry baseDir inheritedPath]

/-- The raw string underlying `LINUXDEPLOY_ENV` after the foreach loop of
`LinuxDeployAppImage.cmake:154-160`, for a given value of the script variable
`EXTRA_ENV_VARS` (`none` models an undefined variable).  `list(APPEND)`
concatenates the raw strings with a `;` glue and performs no escaping. -/
def linuxdeployEnvRaw (baseDir inheritedPath : String) (extra : Option String) : String :=
  match extra with
  | none => pathEntry baseDir inheritedPath
  | some s =>
    if s = "" then pathEntry baseDir inheritedPath
    else (cmakeSplitList s).foldl (fun acc v => acc ++ ";" ++ unflattenEnvVar v)
      (pathEntry baseDir inheritedPath)

/-- The environment-assignment arguments actually received by
`${CMAKE_COMMAND} -E env` at `LinuxDeployAppImage.cmake:169-177`: the
unquoted expansion `${LINUXDEPLOY_ENV}` re-splits the raw list string. -/
def composeFinal (baseDir inheritedPath : String) (extra : Option String) : List String :=
  cmakeSplitList (linuxdeployEnvRaw baseDir inheritedPath extra)

/-- Filesystem-and-network state threaded through tool acquisition: the set of
existing paths (a path models a file, directory or symlink alike) and the
number of `file(DOWNLOAD ...)` network fetches performed so far. -/
structure FsState where
  paths : List String
  downloads : Nat
deriving DecidableEq

/-- Record a path as existing (`file(MAKE_DIRECTORY)`, `file(WRITE)`,
`file(CREATE_LINK)`, download target, extraction output). -/
def addPath (st : FsState) (p : String) : FsState :=
  if p ∈ st.paths then st else { st with paths := st.paths ++ [p] }

/-- Remove a path (`file(REMOVE)`, source side of `file(RENAME)`). -/
def removePath (st : FsState) (p : String) : FsState :=
  { st with paths := st.paths.filter (fun q => q != p) }

/-- The final linked entry-point path of a tool inside the shared cache
directory (`TOOL_PATH` at `LinuxDeployAppImage.cmake:27`). -/
def toolPath (dir name : String) : String := dir ++ "/" ++ name

/-- Embedding of `ensure_appimage_tool` (`LinuxDeployAppImage.cmake:26-70`).
`chmodExit` is the exit code of the `chmod +x` child process and `extractExit`
the exit code of the self-extraction run; both are inputs because they are the
outcomes of external processes.  The script captures no result variable for
the `chmod` call, so the definition branches only on `extractExit`; a download
failure is not modelled because `file(DOWNLOAD)` without a `STATUS` variable
halts the script by itself. -/
def ensure_appimage_tool (dir name url : String) (chmodExit extractExit : Int)
    (st : FsState) : Except String FsState :=
  if toolPath dir name ∈ st.paths then
    Except.ok st
  else
    let st1 := addPath st dir
    let st2 := { addPath st1 (toolPath dir name ++ ".tmp") with downloads := st1.downloads + 1 }
    if extractExit ≠ 0 then
      Except.error ("Failed to extract " ++ name)
    else
      let st3 := addPath st2 (dir ++ "/squashfs-root")
      let st4 := addPath (removePath st3 (dir ++ "/squashfs-root")) (dir ++ "/" ++ name ++ "-squashfs-root")
      let st5 := addPath st4 (toolPath dir name)
      let st6 := removePath st5 (toolPath dir name ++ ".tmp")
      Except.ok st6

/-- Embedding of `ensure_shell_script` (`LinuxDeployAppImage.cmake:73-94`):
skip when the script path exists, otherwise download straight to the final
path and `chmod` it (again without examining the chmod exit code). -/
def ensure_shell_script (dir name url : String) (chmodExit : Int)
    (st : FsState) : Except String FsState :=
  if toolPath dir name ∈ st.paths then
    Except.ok st
  else
    let st1 := addPath st dir
    let st2 := { addPath st1 (toolPath dir name) with downloads := st1.downloads + 1 }
    Except.ok st2

/-- The gtk plugin text patch (`LinuxDeployAppImage.cmake:144-147`): read the
script, replace the literal `libgtk-3-0` with `libgtk-3-0t64`, write back. -/
def applyGtkPatch (content : String) : String :=
  crep "libgtk-3-0" "libgtk-3-0t64" content

/-- Observable steps of one run of `LinuxDeployAppImage.cmake`, in program
order: staging-tree reset, component install, descriptor write, icon
placeholder, tool/script acquisition calls, gtk patch application and the
final deployment-tool invocation. -/
inductive Ev
  | removeTree (path : String)
  | install (component installPre : String)
  | writeDesktop (path content : String)
  | touchIcon (path : String)
  | ensureTool (name url : String)
  | ensureScript (name url : String)
  | patchGtkScript (path : String)
  | deploy (env args : List String)
deriving DecidableEq

/-- Errors surfaced by `message(FATAL_ERROR ...)`, tagged by the design
stage at which the script raises them. -/
inductive PipelineError
  | ConfigurationError (message : String)
  | InstallError (message : String)
  | DeployError (message : String)
deriving DecidableEq

/-- Result of one script run: the steps performed, in order, and the fatal
error, if any, that stopped the run. -/
structure RunResult where
  events : List Ev
  error : Option PipelineError
deriving DecidableEq

/-- Script variables of `LinuxDeployAppImage.cmake` as handed over by the
`-D` definitions of `AppImage.cmake:56-67`; `none` models an undefined
variable. -/
structure Cfg where
  componentName : Option String
  appName : Option String
  executableName : Option String
  pluginType : Option String
  extraEnvVars : Option String
  binaryDir : String
  inheritedPath : String

/-- Exit codes of the two checked external child processes of the script
(the `--install` run at line 100 and the linuxdeploy run at line 169). -/
structure Ext where
  installExit : Int
  deployExit : Int

/-- Download URL of the linuxdeploy tool (`LinuxDeployAppImage.cmake:129`). -/
def linuxdeployUrl : String :=
  "https://github.com/linuxdeploy/linuxdeploy/releases/download/continuous/linuxdeploy-x86_64.AppImage"

/-- Download URL of the qt plugin (`LinuxDeployAppImage.cmake:136`). -/
def qtPluginUrl : String :=
  "https://github.com/linuxdeploy/linuxdeploy-plugin-qt/releases/download/1-alpha-20250213-1/linuxdeploy-plugin-qt-x86_64.AppImage"

/-- Download URL of the gtk plugin script (`LinuxDeployAppImage.cmake:141`). -/
def gtkPluginUrl : String :=
  "https://raw.githubusercontent.com/linuxdeploy/linuxdeploy-plugin-gtk/master/linuxdeploy-plugin-gtk.sh"

/-- The `DESKTOP_CONTENT` descriptor (`LinuxDeployAppImage.cmake:113-119`). -/
def desktopContent (appName executableName : String) : String :=
  "[Desktop Entry]\nType=Application\nName=" ++ appName ++ "\nExec=" ++ executableName ++
    "\nCategories=Utility;\nIcon=appname\n"

/-- The plugin-setup branch (`LinuxDeployAppImage.cmake:132-148`): `qt`
acquires a second AppImage tool, `gtk` acquires the plugin shell script and
then applies the text patch to it, and any other value does nothing. -/
def pluginEvents (pt ldDir : String) : List Ev :=
  if pt = "qt" then
    [Ev.ensureTool "linuxdeploy-plugin-qt-x86_64.AppImage" qtPluginUrl]
  else if pt = "gtk" then
    [Ev.ensureScript "linuxdeploy-plugin-gtk.sh" gtkPluginUrl,
     Ev.patchGtkScript (ldDir ++ "/linuxdeploy-plugin-gtk.sh")]
  else []

/-- The body of `LinuxDeployAppImage.cmake` after the three required-variable
checks have passed (`cn`, `an`, `en` are the checked values). -/
def runPipelineChecked (c : Cfg) (cn an en : String) (x : Ext) : RunResult :=
  let pt := c.pluginType.getD "qt"
  let appdir := c.binaryDir ++ "/AppDir_" ++ cn
  let ldDir := c.binaryDir ++ "/linuxdeploy_tools"
  let ev0 := [Ev.removeTree appdir, Ev.install cn (appdir ++ "/usr/bin")]
  if x.installExit ≠ 0 then
    ⟨ev0, some (PipelineError.InstallError ("Failed to install component " ++ cn))⟩
  else
    let evs := ev0 ++
      [Ev.writeDesktop (appdir ++ "/usr/share/applications/" ++ en ++ ".desktop")
         (desktopContent an en),
       Ev.touchIcon (appdir ++ "/usr/share/icons/hicolor/scalable/apps/appname.svg"),
       Ev.ensureTool "linuxdeploy-x86_64.AppImage" linuxdeployUrl] ++
      pluginEvents pt ldDir ++
      [Ev.deploy (composeFinal ldDir c.inheritedPath c.extraEnvVars)
         [ldDir ++ "/linuxdeploy-x86_64.AppImage", "--appdir", appdir,
          "--plugin", pt, "--output", "appimage"]]
    if x.deployExit ≠ 0 then
      ⟨evs, some (PipelineError.DeployError ("linuxdeploy failed for " ++ cn))⟩
    else
      ⟨evs, none⟩

/-- One run of `LinuxDeployAppImage.cmake`: the three required-variable
checks of lines 6-16 fire, in script order, before anything else happens;
then the staged body runs. -/
def runPipeline (c : Cfg) (x : Ext) : RunResult :=
  match c.componentName, c.appName, c.executableName with
  | none, _, _ =>
    ⟨[], some (PipelineError.ConfigurationError "COMPONENT_NAME must be defined")⟩
  | some _, none, _ =>
    ⟨[], some (PipelineError.ConfigurationError "APP_NAME must be defined")⟩
  | some _, some _, none =>
    ⟨[], some (PipelineError.ConfigurationError "EXECUTABLE_NAME must be defined")⟩
  | some cn, some an, some en => runPipelineChecked c cn an en x

/-- Data computed by a successful `add_appimage_from_component` call
(`AppImage.cmake:44-70`): the sanitized display name, the artifact file name
and full path, the effective plugin type and the argument list passed on to
the assembly script. -/
structure AppImageTask where
  sanitizedName : String
  appimageFileName : String
  appimageFullPath : String
  pluginType : String
  linuxdeployArgs : List String
deriving DecidableEq

/-- Embedding of `add_appimage_from_component` (`AppImage.cmake:21-70`):
validate the three required keyword arguments, default `PLUGIN_TYPE` to
`"qt"`, sanitize the display name by replacing spaces with underscores,
derive the artifact path `<binaryDir>/<sanitized>-x86_64.AppImage`, and
build the `-D` argument list (flattening `EXTRA_ENV_VARS` when nonempty). -/
def add_appimage_from_component (binaryDir sourceDir : String)
    (componentName displayName executableName pluginType : Option String)
    (extraEnvVars : List String) : Except String AppImageTask :=
  match componentName with
  | none => Except.error "add_appimage_from_component: COMPONENT_NAME is required."
  | some cn =>
  match displayName with
  | none => Except.error "add_appimage_from_component: DISPLAY_NAME is required."
  | some dn =>
  match executableName with
  | none => Except.error "add_appimage_from_component: EXECUTABLE_NAME is required."
  | some en =>
    let pt := pluginType.getD "qt"
    let sanitized := crep " " "_" dn
    let fileName := sanitized ++ "-x86_64.AppImage"
    let args :=
      ["-DCOMPONENT_NAME=" ++ cn, "-DAPP_NAME=" ++ dn, "-DEXECUTABLE_NAME=" ++ en,
       "-DPLUGIN_TYPE=" ++ pt, "-DCMAKE_CURRENT_BINARY_DIR=" ++ binaryDir] ++
      (if extraEnvVars ≠ [] then
        ["-DEXTRA_ENV_VARS:STRING=\"" ++ flattenEnvVars extraEnvVars ++ "\""]
       else []) ++
      ["-P", sourceDir ++ "/cmake/LinuxDeployAppImage.cmake"]
    Except.ok ⟨sanitized, fileName, binaryDir ++ "/" ++ fileName, pt, args⟩

/-- Modelled from the spec wording for `sanitizedName`: replace every space
character with an underscore and change nothing else. -/
def spaceToUnderscore (s : String) : String :=
  ⟨s.data.map (fun c => if c = ' ' then '_' else c)⟩

/-- Replacement with a single-character pattern is exactly a character map,
provided the fuel covers the input length. -/
lemma replaceAllFuel_single (a b : Char) (fuel : Nat) :
    ∀ s : List Char, s.length ≤ fuel →
      replaceAllFuel [a] [b] fuel s = s.map (fun c => if c = a then b else c) := by
  induction fuel with
  | zero =>
    intro s h
    have hs : s = [] := List.eq_nil_of_length_eq_zero (Nat.le_zero.mp h)
    subst hs; rfl
  | succ n ih =>
    intro s h
    cases s with
    | nil => rfl
    | cons c rest =>
      have hr : rest.length ≤ n := by simp at h; omega
      simp only [replaceAllFuel]
      by_cases hc : c = a
      · subst hc
        rw [if_pos (by simp [List.isPrefixOf])]
        simp [ih rest hr]
      · rw [if_neg (by simp [List.isPrefixOf]; exact fun hac => hc hac.symm)]
        simp [ih rest hr, hc]

/-- The sanitizer of `AppImage.cmake:48` agrees with the character map that
sends space to underscore and fixes everything else. -/
lemma crep_space_underscore (s : String) : crep " " "_" s = spaceToUnderscore s := by
  have h1 : (" " : String).data = [' '] := rfl
  have h2 : ("_" : String).data = ['_'] := rfl
  unfold crep spaceToUnderscore
  rw [h1, h2]
  exact congrArg String.mk (replaceAllFuel_single ' ' '_' s.data.length s.data le_rfl)

/-- C7: for every display name, `sanitizedName` replaces every space with an
underscore and changes nothing else (in particular `"My App Two"` becomes
`"My_App_Two"`), and the single output artifact path is exactly
`<outputDir>/<sanitizedName>-x86_64.AppImage`. -/
theorem sanitizedName_and_artifact_path (binaryDir sourceDir cn dn en : String)
    (pt : Option String) (ev : List String) :
    ∃ t, add_appimage_from_component binaryDir sourceDir (some cn) (some dn) (some en) pt ev
        = Except.ok t ∧
      t.sanitizedName = spaceToUnderscore dn ∧
      t.appimageFullPath = binaryDir ++ "/" ++ (t.sanitizedName ++ "-x86_64.AppImage") ∧
      spaceToUnderscore "My App Two" = "My_App_Two" := by
  refine ⟨_, rfl, ?_, ?_, by decide⟩
  · exact crep_space_underscore dn
  · rfl

/-- C1 evidence: the gtk plugin text patch is not idempotent.  The first
application rewrites `libgtk-3-0` to `libgtk-3-0t64`, but the target
substring `libgtk-3-0` still occurs (as a prefix of `libgtk-3-0t64`), so a
second application yields `libgtk-3-0t64t64` instead of being a no-op. -/
theorem gtk_patch_not_idempotent :
    applyGtkPatch "libgtk-3-0\n" = "libgtk-3-0t64\n" ∧
    applyGtkPatch (applyGtkPatch "libgtk-3-0\n") = "libgtk-3-0t64t64\n" ∧
    applyGtkPatch (applyGtkPatch "libgtk-3-0\n") ≠ applyGtkPatch "libgtk-3-0\n" :=
  ⟨by decide, by decide, by decide⟩

/-- C2 counterexample: a value holding a raw literal `;` does not survive the
flatten/unflatten round trip.  Flattening escapes the literal `;` of
`FOO=a;b` exactly like the list separators, the unflattening step only
rewrites the never-produced placeholder `<SEMICOLON>`, and the final unquoted
expansion re-splits at the unprotected semicolons, so the deployment tool
receives the entries `FOO=a`, `b`, `BAR=c` instead of `FOO=a;b`. -/
theorem flatten_unflatten_drops_literal_semicolon :
    composeFinal "/x" "/usr/bin" (some (flattenEnvVars ["FOO=a;b", "BAR=c"]))
        = ["PATH=/x:/usr/bin", "FOO=a", "b", "BAR=c"] ∧
    "FOO=a;b" ∉ composeFinal "/x" "/usr/bin" (some (flattenEnvVars ["FOO=a;b", "BAR=c"])) :=
  ⟨by decide, by decide⟩

/-- C2 amended: only when the caller itself writes the placeholder token
`<SEMICOLON>` in place of the literal `;` does the round trip work: the
unflattening step rewrites the placeholder to the escaped `\;`, which the
final unquoted expansion turns back into a literal `;` inside one entry, so
the deployment tool receives `FOO=a;b` and `BAR=c`. -/
theorem placeholder_round_trip :
    composeFinal "/x" "/usr/bin" (some (flattenEnvVars ["FOO=a<SEMICOLON>b", "BAR=c"]))
        = ["PATH=/x:/usr/bin", "FOO=a;b", "BAR=c"] := by decide

/-- Appending one element at a time from the left is the same as appending
the mapped list. -/
lemma foldl_append_unflatten (l : List String) (acc : List String) :
    l.foldl (fun a v => a ++ [unflattenEnvVar v]) acc = acc ++ l.map unflattenEnvVar := by
  induction l generalizing acc with
  | nil => simp
  | cons x xs ih => simp [ih, List.append_assoc]

/-- C4: for every base directory and every (possibly empty) list of extra
variables, the composed environment list has the `PATH=<baseDir>:<inherited>`
entry first, followed by the (placeholder-unescaped) extra variables in
exactly the caller-supplied order; placeholder-free variables pass through
verbatim, and an empty extra list yields the single PATH entry. -/
theorem compose_path_first_and_order (baseDir inheritedPath : String) (extraVars : List String) :
    compose baseDir inheritedPath extraVars
        = pathEntry baseDir inheritedPath :: extraVars.map unflattenEnvVar ∧
    (extraVars = [] →
      compose baseDir inheritedPath extraVars = [pathEntry baseDir inheritedPath]) ∧
    ((∀ v ∈ extraVars, unflattenEnvVar v = v) →
      compose baseDir inheritedPath extraVars = pathEntry baseDir inheritedPath :: extraVars) := by
  have hmain : compose baseDir inheritedPath extraVars
      = pathEntry baseDir inheritedPath :: extraVars.map unflattenEnvVar := by
    unfold compose
    simpa using foldl_append_unflatten extraVars [pathEntry baseDir inheritedPath]
  refine ⟨hmain, ?_, ?_⟩
  · intro hnil; subst hnil; simpa using hmain
  · intro hid
    rw [hmain]
    exact congrArg _ (List.map_congr_left hid ▸ List.map_id extraVars)

/-- C4 witness: a concrete composition with two placeholder-free extra
variables. -/
theorem compose_path_first_and_order_witness :
    compose "/x" "/usr/bin" ["FOO=1", "BAR=2"] = ["PATH=/x:/usr/bin", "FOO=1", "BAR=2"] := by
  have h := (compose_path_first_and_order "/x" "/usr/bin" ["FOO=1", "BAR=2"]).2.2 (by decide)
  simpa using h

/-- Recording a path makes it exist. -/
lemma mem_addPath_self (st : FsState) (p : String) : p ∈ (addPath st p).paths := by
  unfold addPath; split <;> simp_all

/-- Recording a path keeps every existing path. -/
lemma mem_addPath_of_mem {st : FsState} {q : String} (h : q ∈ st.paths) (p : String) :
    q ∈ (addPath st p).paths := by
  unfold addPath; split <;> simp_all

/-- Removing a different path keeps an existing path. -/
lemma mem_removePath {st : FsState} {q : String} (h : q ∈ st.paths) {p : String}
    (hqp : q ≠ p) : q ∈ (removePath st p).paths := by
  unfold removePath
  simp [List.mem_filter, h, hqp]

/-- Recording a path never performs a network fetch. -/
lemma addPath_downloads (st : FsState) (p : String) :
    (addPath st p).downloads = st.downloads := by
  unfold addPath; split <;> rfl

/-- Removing a path never performs a network fetch. -/
lemma removePath_downloads (st : FsState) (p : String) :
    (removePath st p).downloads = st.downloads := rfl

/-- A path differs from the temporary download path derived from it. -/
lemma ne_append_tmp (s : String) : s ≠ s ++ ".tmp" := by
  intro h
  have hlen := congrArg String.length h
  rw [String.length_append] at hlen
  have h4 : (".tmp" : String).length = 4 := rfl
  omega

/-- C3: `ensure_appimage_tool` is idempotent.  When the final linked
entry-point path already exists the call is a pure no-op (no download, no
filesystem change); when it does not — regardless of any intermediate marker
such as a leftover `.tmp` download — a successful call performs exactly one
network download, establishes the final path, and a repeated call with the
same name and URL is then a pure no-op, downloading nothing. -/
theorem ensure_tool_idempotent (dir name url : String) (ce1 ee1 ce2 ee2 : Int) (st : FsState) :
    (toolPath dir name ∈ st.paths →
      ensure_appimage_tool dir name url ce1 ee1 st = Except.ok st) ∧
    (toolPath dir name ∉ st.paths → ee1 = 0 →
      ∃ st2, ensure_appimage_tool dir name url ce1 ee1 st = Except.ok st2 ∧
        st2.downloads = st.downloads + 1 ∧
        toolPath dir name ∈ st2.paths ∧
        ensure_appimage_tool dir name url ce2 ee2 st2 = Except.ok st2) := by
  constructor
  · intro h
    unfold ensure_appimage_tool
    rw [if_pos h]
  · intro h he
    subst he
    rw [ensure_appimage_tool, if_neg h]
    rw [if_neg (by simp : ¬ ((0 : Int) ≠ 0))]
    refine ⟨_, rfl, ?_, ?_, ?_⟩
    · simp [removePath_downloads, addPath_downloads]
    · exact mem_removePath
        (mem_addPath_self _ (toolPath dir name))
        (ne_append_tmp (toolPath dir name))
    · rw [ensure_appimage_tool, if_pos]
      exact mem_removePath
        (mem_addPath_self _ (toolPath dir name))
        (ne_append_tmp (toolPath dir name))

/-- C3 witness: with the final path `/t/n` already present the call returns
the state untouched; starting instead from a state that holds only the
leftover intermediate marker `/t/n.tmp`, the call still downloads (exactly
once) and a second call is a no-op. -/
theorem ensure_tool_idempotent_witness :
    ensure_appimage_tool "/t" "n" "u" 0 0 ⟨["/t/n"], 5⟩ = Except.ok ⟨["/t/n"], 5⟩ ∧
    ensure_appimage_tool "/t" "n" "u" 0 0 ⟨["/t/n.tmp"], 0⟩ =
      Except.ok ⟨["/t", "/t/n-squashfs-root", "/t/n"], 1⟩ := by
  have h1 := (ensure_tool_idempotent "/t" "n" "u" 0 0 0 0 ⟨["/t/n"], 5⟩).1 (by decide)
  have h2 := (ensure_tool_idempotent "/t" "n" "u" 0 0 0 0 ⟨["/t/n.tmp"], 0⟩).2 (by decide) rfl
  exact ⟨h1, by rfl⟩

/-- C6 counterexample: marking the downloaded binary executable fails (the
`chmod` child exits with code 1), yet `ensure_appimage_tool` does not fail:
it runs to completion and links the tool, because the script captures no
result variable for the `chmod` call. -/
theorem chmod_failure_not_fatal :
    ensure_appimage_tool "/t" "n" "u" 1 0 ⟨[], 0⟩ =
      Except.ok ⟨["/t", "/t/n-squashfs-root", "/t/n"], 1⟩ := by rfl

/-- C6 amended: a failure of the `chmod +x` step is silently ignored — the
outcome of `ensure_appimage_tool` (and of `ensure_shell_script`) is
identical for every chmod exit code; no `PermissionError` path exists in
the script. -/
theorem ensure_ignores_chmod_exit (dir name url : String) (ce1 ce2 ee : Int) (st : FsState) :
    ensure_appimage_tool dir name url ce1 ee st = ensure_appimage_tool dir name url ce2 ee st ∧
    ensure_shell_script dir name url ce1 st = ensure_shell_script dir name url ce2 st :=
  ⟨rfl, rfl⟩

/-- C5: when the external install step exits nonzero the pipeline halts at
the Installed stage: the run consists of exactly the staging-tree reset and
the failed install attempt, the surfaced error is the `InstallError` naming
the failed install of the component, and no metadata-writing, tool-ensuring,
patching or deploy step executes. -/
theorem install_failure_halts (c : Cfg) (cn an en : String) (x : Ext)
    (hc : c.componentName = some cn) (ha : c.appName = some an)
    (he : c.executableName = some en) (hx : x.installExit ≠ 0) :
    runPipeline c x =
      ⟨[Ev.removeTree (c.binaryDir ++ "/AppDir_" ++ cn),
        Ev.install cn (c.binaryDir ++ "/AppDir_" ++ cn ++ "/usr/bin")],
       some (PipelineError.InstallError ("Failed to install component " ++ cn))⟩ ∧
    (∀ p content, Ev.writeDesktop p content ∉ (runPipeline c x).events) ∧
    (∀ p, Ev.touchIcon p ∉ (runPipeline c x).events) ∧
    (∀ n u, Ev.ensureTool n u ∉ (runPipeline c x).events) ∧
    (∀ n u, Ev.ensureScript n u ∉ (runPipeline c x).events) ∧
    (∀ p, Ev.patchGtkScript p ∉ (runPipeline c x).events) ∧
    (∀ env args, Ev.deploy env args ∉ (runPipeline c x).events) := by
  have hrun : runPipeline c x =
      ⟨[Ev.removeTree (c.binaryDir ++ "/AppDir_" ++ cn),
        Ev.install cn (c.binaryDir ++ "/AppDir_" ++ cn ++ "/usr/bin")],
       some (PipelineError.InstallError ("Failed to install component " ++ cn))⟩ := by
    simp [runPipeline, hc, ha, he, runPipelineChecked, hx]
  rw [hrun]
  refine ⟨rfl, ?_, ?_, ?_, ?_, ?_, ?_⟩ <;> intros <;> simp

/-- C5 witness: a concrete run whose install step exits with code 1. -/
theorem install_failure_halts_witness :
    runPipeline ⟨some "viewer", some "My Viewer", some "viewer-bin", none, none, "/b", "/p"⟩
        ⟨1, 0⟩ =
      ⟨[Ev.removeTree "/b/AppDir_viewer", Ev.install "viewer" "/b/AppDir_viewer/usr/bin"],
       some (PipelineError.InstallError "Failed to install component viewer")⟩ := by
  have h := (install_failure_halts
    ⟨some "viewer", some "My Viewer", some "viewer-bin", none, none, "/b", "/p"⟩
    "viewer" "My Viewer" "viewer-bin" ⟨1, 0⟩ rfl rfl rfl (by decide)).1
  simpa using h

/-- Event trace of a run whose required inputs are present and whose install
step succeeded, shared by the ToolsReady and Deployed stage theorems. -/
lemma runPipeline_success_events (c : Cfg) (cn an en pt : String) (x : Ext)
    (hc : c.componentName = some cn) (ha : c.appName = some an)
    (he : c.executableName = some en) (hp : c.pluginType = some pt)
    (hx : x.installExit = 0) :
    (runPipeline c x).events =
      [Ev.removeTree (c.binaryDir ++ "/AppDir_" ++ cn),
       Ev.install cn (c.binaryDir ++ "/AppDir_" ++ cn ++ "/usr/bin"),
       Ev.writeDesktop (c.binaryDir ++ "/AppDir_" ++ cn ++ "/usr/share/applications/" ++ en ++ ".desktop")
         (desktopContent an en),
       Ev.touchIcon (c.binaryDir ++ "/AppDir_" ++ cn ++ "/usr/share/icons/hicolor/scalable/apps/appname.svg"),
       Ev.ensureTool "linuxdeploy-x86_64.AppImage" linuxdeployUrl] ++
      (if pt = "qt" then
        [Ev.ensureTool "linuxdeploy-plugin-qt-x86_64.AppImage" qtPluginUrl]
       else if pt = "gtk" then
        [Ev.ensureScript "linuxdeploy-plugin-gtk.sh" gtkPluginUrl,
         Ev.patchGtkScript (c.binaryDir ++ "/linuxdeploy_tools" ++ "/linuxdeploy-plugin-gtk.sh")]
       else []) ++
      [Ev.deploy (composeFinal (c.binaryDir ++ "/linuxdeploy_tools") c.inheritedPath c.extraEnvVars)
        [c.binaryDir ++ "/linuxdeploy_tools" ++ "/linuxdeploy-x86_64.AppImage",
         "--appdir", c.binaryDir ++ "/AppDir_" ++ cn,
         "--plugin", pt, "--output", "appimage"]] := by
  by_cases hd : x.deployExit = 0 <;>
    simp [runPipeline, hc, ha, he, runPipelineChecked, hp, hx, hd, pluginEvents]

/-- C8: with the install step succeeded, the ToolsReady stage always ensures
the main deployment tool, then branches on the plugin type: `"qt"` ensures
the second AppImage tool, `"gtk"` ensures the plugin shell script and applies
the fixed text patch, and every other value ensures nothing; the run then
proceeds to the deploy invocation. -/
theorem plugin_type_branch (c : Cfg) (cn an en pt : String) (x : Ext)
    (hc : c.componentName = some cn) (ha : c.appName = some an)
    (he : c.executableName = some en) (hp : c.pluginType = some pt)
    (hx : x.installExit = 0) :
    (runPipeline c x).events =
      [Ev.removeTree (c.binaryDir ++ "/AppDir_" ++ cn),
       Ev.install cn (c.binaryDir ++ "/AppDir_" ++ cn ++ "/usr/bin"),
       Ev.writeDesktop (c.binaryDir ++ "/AppDir_" ++ cn ++ "/usr/share/applications/" ++ en ++ ".desktop")
         (desktopContent an en),
       Ev.touchIcon (c.binaryDir ++ "/AppDir_" ++ cn ++ "/usr/share/icons/hicolor/scalable/apps/appname.svg"),
       Ev.ensureTool "linuxdeploy-x86_64.AppImage" linuxdeployUrl] ++
      (if pt = "qt" then
        [Ev.ensureTool "linuxdeploy-plugin-qt-x86_64.AppImage" qtPluginUrl]
       else if pt = "gtk" then
        [Ev.ensureScript "linuxdeploy-plugin-gtk.sh" gtkPluginUrl,
         Ev.patchGtkScript (c.binaryDir ++ "/linuxdeploy_tools" ++ "/linuxdeploy-plugin-gtk.sh")]
       else []) ++
      [Ev.deploy (composeFinal (c.binaryDir ++ "/linuxdeploy_tools") c.inheritedPath c.extraEnvVars)
        [c.binaryDir ++ "/linuxdeploy_tools" ++ "/linuxdeploy-x86_64.AppImage",
         "--appdir", c.binaryDir ++ "/AppDir_" ++ cn,
         "--plugin", pt, "--output", "appimage"]] :=
  runPipeline_success_events c cn an en pt x hc ha he hp hx

/-- C8 witness: a concrete gtk-plugin run with both external steps
succeeding acquires the gtk script, patches it, and deploys. -/
theorem plugin_type_branch_witness :
    (runPipeline ⟨some "viewer", some "My Viewer", some "viewer-bin", some "gtk", none, "/b", "/p"⟩
        ⟨0, 0⟩).events =
      [Ev.removeTree "/b/AppDir_viewer",
       Ev.install "viewer" "/b/AppDir_viewer/usr/bin",
       Ev.writeDesktop "/b/AppDir_viewer/usr/share/applications/viewer-bin.desktop"
         (desktopContent "My Viewer" "viewer-bin"),
       Ev.touchIcon "/b/AppDir_viewer/usr/share/icons/hicolor/scalable/apps/appname.svg",
       Ev.ensureTool "linuxdeploy-x86_64.AppImage" linuxdeployUrl,
       Ev.ensureScript "linuxdeploy-plugin-gtk.sh" gtkPluginUrl,
       Ev.patchGtkScript "/b/linuxdeploy_tools/linuxdeploy-plugin-gtk.sh",
       Ev.deploy ["PATH=/b/linuxdeploy_tools:/p"]
         ["/b/linuxdeploy_tools/linuxdeploy-x86_64.AppImage",
          "--appdir", "/b/AppDir_viewer", "--plugin", "gtk", "--output", "appimage"]] := by
  have h := plugin_type_branch
    ⟨some "viewer", some "My Viewer", some "viewer-bin", some "gtk", none, "/b", "/p"⟩
    "viewer" "My Viewer" "viewer-bin" "gtk" ⟨0, 0⟩ rfl rfl rfl rfl rfl
  simpa using h

/-- C10: whenever the deploy stage is reached, the deployment tool is
invoked with the flag pair `--plugin <pluginType>`, passing the script's
plugin-type value verbatim — also for unrecognized values for which the
ToolsReady stage ensured no plugin. -/
theorem deploy_passes_plugin_flag_verbatim (c : Cfg) (cn an en pt : String) (x : Ext)
    (hc : c.componentName = some cn) (ha : c.appName = some an)
    (he : c.executableName = some en) (hp : c.pluginType = some pt)
    (hx : x.installExit = 0) :
    Ev.deploy (composeFinal (c.binaryDir ++ "/linuxdeploy_tools") c.inheritedPath c.extraEnvVars)
        [c.binaryDir ++ "/linuxdeploy_tools" ++ "/linuxdeploy-x86_64.AppImage",
         "--appdir", c.binaryDir ++ "/AppDir_" ++ cn,
         "--plugin", pt, "--output", "appimage"]
      ∈ (runPipeline c x).events := by
  rw [(runPipeline_success_events c cn an en pt x hc ha he hp hx :)]
  simp

/-- C10 witness: an unrecognized plugin type `"frob"` still reaches the
deployment tool verbatim behind `--plugin`. -/
theorem deploy_passes_plugin_flag_verbatim_witness :
    Ev.deploy ["PATH=/b/linuxdeploy_tools:/p"]
        ["/b/linuxdeploy_tools/linuxdeploy-x86_64.AppImage",
         "--appdir", "/b/AppDir_viewer", "--plugin", "frob", "--output", "appimage"]
      ∈ (runPipeline ⟨some "viewer", some "My Viewer", some "viewer-bin", some "frob",
          none, "/b", "/p"⟩ ⟨0, 0⟩).events := by
  have h := deploy_passes_plugin_flag_verbatim
    ⟨some "viewer", some "My Viewer", some "viewer-bin", some "frob", none, "/b", "/p"⟩
    "viewer" "My Viewer" "viewer-bin" "frob" ⟨0, 0⟩ rfl rfl rfl rfl rfl
  simpa using h

/-- C9: a run missing any of the three required inputs fails with the
matching `ConfigurationError` before any pipeline stage executes (the event
list is empty), in both the assembly script and the
`add_appimage_from_component` front end; an absent `pluginType` defaults to
`"qt"` in both. -/
theorem required_inputs_checked_and_plugin_defaults (c : Cfg) (x : Ext)
    (bd sd : String) (odn oen opt : Option String) (ev : List String) :
    (c.componentName = none →
      runPipeline c x =
        ⟨[], some (PipelineError.ConfigurationError "COMPONENT_NAME must be defined")⟩) ∧
    (∀ cn, c.componentName = some cn → c.appName = none →
      runPipeline c x =
        ⟨[], some (PipelineError.ConfigurationError "APP_NAME must be defined")⟩) ∧
    (∀ cn an, c.componentName = some cn → c.appName = some an → c.executableName = none →
      runPipeline c x =
        ⟨[], some (PipelineError.ConfigurationError "EXECUTABLE_NAME must be defined")⟩) ∧
    (c.pluginType = none →
      runPipeline c x = runPipeline { c with pluginType := some "qt" } x) ∧
    add_appimage_from_component bd sd none odn oen opt ev =
      Except.error "add_appimage_from_component: COMPONENT_NAME is required." ∧
    (∀ cn, add_appimage_from_component bd sd (some cn) none oen opt ev =
      Except.error "add_appimage_from_component: DISPLAY_NAME is required.") ∧
    (∀ cn dn, add_appimage_from_component bd sd (some cn) (some dn) none opt ev =
      Except.error "add_appimage_from_component: EXECUTABLE_NAME is required.") ∧
    (∀ cn dn en t,
      add_appimage_from_component bd sd (some cn) (some dn) (some en) none ev = Except.ok t →
      t.pluginType = "qt") := by
  refine ⟨?_, ?_, ?_, ?_, rfl, fun cn => rfl, fun cn dn => rfl, ?_⟩
  · intro h; simp [runPipeline, h]
  · intro cn hc h; simp [runPipeline, hc, h]
  · intro cn an hc ha h; simp [runPipeline, hc, ha, h]
  · intro h
    simp [runPipeline]
    cases hcn : c.componentName with
    | none => rfl
    | some cn =>
      cases han : c.appName with
      | none => rfl
      | some an =>
        cases hen : c.executableName with
        | none => rfl
        | some en => simp [runPipelineChecked, h]
  · intro cn dn en t ht
    cases ht
    rfl

/-- C9 witness: a run with `APP_NAME` undefined performs nothing and
surfaces the configuration error; a front-end call without `DISPLAY_NAME`
is rejected; an absent plugin type yields the qt default. -/
theorem required_inputs_checked_witness :
    runPipeline ⟨some "viewer", none, some "viewer-bin", none, none, "/b", "/p"⟩ ⟨0, 0⟩ =
      ⟨[], some (PipelineError.ConfigurationError "APP_NAME must be defined")⟩ ∧
    add_appimage_from_component "/b" "/s" (some "viewer") none (some "viewer-bin") none [] =
      Except.error "add_appimage_from_component: DISPLAY_NAME is required." ∧
    runPipeline ⟨some "viewer", some "V", some "viewer-bin", none, none, "/b", "/p"⟩ ⟨0, 0⟩ =
      runPipeline ⟨some "viewer", some "V", some "viewer-bin", some "qt", none, "/b", "/p"⟩ ⟨0, 0⟩ := by
  have h := required_inputs_checked_and_plugin_defaults
    ⟨some "viewer", none, some "viewer-bin", none, none, "/b", "/p"⟩ ⟨0, 0⟩
    "/b" "/s" none (some "viewer-bin") none []
  have h2 := required_inputs_checked_and_plugin_defaults
    ⟨some "viewer", some "V", some "viewer-bin", none, none, "/b", "/p"⟩ ⟨0, 0⟩
    "/b" "/s" none (some "viewer-bin") none []
  refine ⟨h.2.1 "viewer" rfl rfl, h.2.2.2.2.2.1 "viewer", ?_⟩
  simpa using h2.2.2.2.1 rfl

end Chat
